import Mathlib

/-!
Verification development for the donkeycar-jetson-nano driving script
(`manage.py`).  The script assembles a vehicle control loop from parts
("Units"): a clock, a camera, an input controller, a pilot-gating Lambda,
a Keras pilot, a drive-mode arbitration Lambda, steering/throttle
actuators and a TubWriter data logger.  The scheduler and lifecycle are
provided by the external donkeycar library; they are modelled here from
the specification.  The functions `pilot_condition`, `drive_mode`,
`get_model` and the training arithmetic are embedded directly from the
source.
-/

/-- Dynamically typed value on the shared state Bus (Python value). -/
inductive Val where
  | vnone
  | vbool (b : Bool)
  | vint (n : Int)
  | vstr (s : String)
deriving DecidableEq, Repr

/-- Modelled from the spec: truthiness of a Bus value, used to resolve a
run-condition key each tick ("a boolean resolved each tick from the Bus
value at the run_condition key"); mirrors Python truthiness. -/
def truthy : Val → Bool
  | Val.vnone => false
  | Val.vbool b => b
  | Val.vint n => n != 0
  | Val.vstr s => !s.isEmpty

/-- Modelled from the spec: the shared state Bus, a mapping from string
signal keys to values; a read of an unset key returns a default. -/
def Bus : Type := String → Val

/-- Bus read: returns the current value at a key. -/
def Bus.get (b : Bus) (k : String) : Val := b k

/-- Bus write: overwrites the value at a key, last writer wins. -/
def Bus.set (b : Bus) (k : String) (v : Val) : Bus :=
  fun q => if q = k then v else b q

/-- The Bus in which no key has been written yet. -/
def Bus.empty : Bus := fun _ => Val.vnone

/-- Modelled from the spec: a Unit descriptor as registered with the
scheduler by V.add in manage.py: declared input keys, output keys,
threaded flag and optional run-condition key, plus the behaviour of the
wrapped part as a function from gathered input values to the list of
produced output values (for a threaded part this is the latest
background snapshot as a function of the inputs handed to it). -/
structure UnitD where
  inputs : List String
  outputs : List String
  threaded : Bool
  run_condition : Option String
  func : List Val → List Val

/-- Modelled from the spec: resolve a run-condition (default true when
none is declared). -/
def runCond (b : Bus) (u : UnitD) : Bool :=
  match u.run_condition with
  | Option.none => true
  | Option.some k => truthy (b.get k)

/-- Write results to the Bus at the declared output keys in positional
correspondence. -/
def writeOutputs : List String → List Val → Bus → Bus
  | [], _, b => b
  | _ :: _, [], b => b
  | k :: ks, v :: vs, b => writeOutputs ks vs (b.set k v)

/-- Modelled from the spec: one scheduler step for one Unit — resolve the
run-condition and skip entirely when false, otherwise gather inputs in
declared order, invoke the part and write its results back to the Bus. -/
def tickUnit (b : Bus) (u : UnitD) : Bus :=
  if runCond b u then writeOutputs u.outputs (u.func (u.inputs.map b.get)) b
  else b

/-- Modelled from the spec: one full scheduler tick — each Unit executes
in strict registration order. -/
def tick (units : List UnitD) (b : Bus) : Bus :=
  units.foldl tickUnit b

/-- Embedded from manage.py: decides whether the pilot should run; False
exactly when the mode equals the string "user". -/
def pilot_condition (mode : Val) : Bool :=
  if mode = Val.vstr "user" then false
  else true

/-- Embedded from manage.py: chooses which (angle, throttle) pair drives
the car, from the mode and the user and pilot signals. -/
def drive_mode (mode user_angle user_throttle pilot_angle pilot_throttle : Val) :
    Val × Val :=
  if mode = Val.vstr "user" then (user_angle, user_throttle)
  else if mode = Val.vstr "local_angle" then (pilot_angle, user_throttle)
  else (pilot_angle, pilot_throttle)

/-- Output snapshot of the input controller part (web or joystick): the
four values it produces each poll. -/
structure CtrOut where
  angle : Val
  throttle : Val
  mode : Val
  recording : Val

/-- Output of the Keras pilot part for one camera frame. -/
structure PilotOut where
  angle : Val
  throttle : Val

/-- Behaviours of the external parts wired into drive(): the clock
timestamp, the latest camera frame snapshot, the controller snapshot as
a function of the frame handed to it, and the pilot as a function of the
frame. -/
structure Behaviors where
  clockOut : Val
  camOut : Val
  ctrOut : Val → CtrOut
  pilotOut : Val → PilotOut

/-- Registration of the Timestamp clock: V.add(clock, outputs=["timestamp"]). -/
def clockUnit (b : Behaviors) : UnitD :=
  { inputs := []
    outputs := ["timestamp"]
    threaded := false
    run_condition := Option.none
    func := fun _ => [b.clockOut] }

/-- Registration of the RealSense camera:
V.add(cam, outputs=["cam/image_array"], threaded=True). -/
def camUnit (b : Behaviors) : UnitD :=
  { inputs := []
    outputs := ["cam/image_array"]
    threaded := true
    run_condition := Option.none
    func := fun _ => [b.camOut] }

/-- Registration of the input controller: V.add(ctr,
inputs=["cam/image_array"], outputs=["user/angle", "user/throttle",
"user/mode", "recording"], threaded=True). -/
def ctrUnit (b : Behaviors) : UnitD :=
  { inputs := ["cam/image_array"]
    outputs := ["user/angle", "user/throttle", "user/mode", "recording"]
    threaded := true
    run_condition := Option.none
    func := fun args =>
      let r := b.ctrOut (args.headD Val.vnone)
      [r.angle, r.throttle, r.mode, r.recording] }

/-- Registration of the pilot-gating Lambda: V.add(pilot_condition_part,
inputs=["user/mode"], outputs=["run_pilot"]). -/
def pilotCondUnit : UnitD :=
  { inputs := ["user/mode"]
    outputs := ["run_pilot"]
    threaded := false
    run_condition := Option.none
    func := fun args => [Val.vbool (pilot_condition (args.headD Val.vnone))] }

/-- Registration of the Keras pilot: V.add(kl, inputs=["cam/image_array"],
outputs=["pilot/angle", "pilot/throttle"], run_condition="run_pilot"). -/
def pilotUnit (b : Behaviors) : UnitD :=
  { inputs := ["cam/image_array"]
    outputs := ["pilot/angle", "pilot/throttle"]
    threaded := false
    run_condition := Option.some "run_pilot"
    func := fun args =>
      let r := b.pilotOut (args.headD Val.vnone)
      [r.angle, r.throttle] }

/-- Registration of the arbitration Lambda: V.add(drive_mode_part,
inputs=["user/mode", "user/angle", "user/throttle", "pilot/angle",
"pilot/throttle"], outputs=["angle", "throttle"]). -/
def driveModeUnit : UnitD :=
  { inputs := ["user/mode", "user/angle", "user/throttle", "pilot/angle", "pilot/throttle"]
    outputs := ["angle", "throttle"]
    threaded := false
    run_condition := Option.none
    func := fun args =>
      let r := drive_mode (args.getD 0 Val.vnone) (args.getD 1 Val.vnone)
        (args.getD 2 Val.vnone) (args.getD 3 Val.vnone) (args.getD 4 Val.vnone)
      [r.1, r.2] }

/-- Registration of the steering actuator: V.add(steering, inputs=["angle"]);
the part produces no Bus outputs. -/
def steeringUnit : UnitD :=
  { inputs := ["angle"]
    outputs := []
    threaded := false
    run_condition := Option.none
    func := fun _ => [] }

/-- Registration of the throttle actuator: V.add(throttle, inputs=["throttle"]). -/
def throttleUnit : UnitD :=
  { inputs := ["throttle"]
    outputs := []
    threaded := false
    run_condition := Option.none
    func := fun _ => [] }

/-- Input keys of the TubWriter, from manage.py line 122. -/
def tub_inputs : List String :=
  ["cam/image_array", "user/angle", "user/throttle", "user/mode", "timestamp"]

/-- Type tags of the TubWriter, from manage.py line 123. -/
def tub_types : List String :=
  ["image_array", "float", "float", "str", "str"]

/-- Registration of the TubWriter data logger:
V.add(tub, inputs=inputs, run_condition="recording"); no outputs. -/
def tubUnit : UnitD :=
  { inputs := tub_inputs
    outputs := []
    threaded := false
    run_condition := Option.some "recording"
    func := fun _ => [] }

/-- The Unit sequence assembled by drive(), in registration order. -/
def driveUnits (b : Behaviors) : List UnitD :=
  [clockUnit b, camUnit b, ctrUnit b, pilotCondUnit, pilotUnit b,
   driveModeUnit, steeringUnit, throttleUnit, tubUnit]

/-- Bus state within a tick at the turn of the Unit with index n (after
the first n registered Units have executed or been skipped). -/
def busAt (b : Behaviors) (bus : Bus) (n : Nat) : Bus :=
  tick ((driveUnits b).take n) bus

/-- A skipped Unit leaves the Bus entirely unchanged. -/
theorem tickUnit_skip (bus : Bus) (u : UnitD) (h : runCond bus u = false) :
    tickUnit bus u = bus := by
  simp [tickUnit, h]

/-- A Unit whose run-condition resolves true writes its results. -/
theorem tickUnit_run (bus : Bus) (u : UnitD) (h : runCond bus u = true) :
    tickUnit bus u = writeOutputs u.outputs (u.func (u.inputs.map bus.get)) bus := by
  simp [tickUnit, h]

/-- Writing at keys not containing k leaves the value at k unchanged. -/
theorem writeOutputs_get_of_contains_eq_false (ks : List String) (vs : List Val)
    (bus : Bus) (k : String) (h : ks.contains k = false) :
    (writeOutputs ks vs bus).get k = bus.get k := by
  induction ks generalizing vs bus with
  | nil => rfl
  | cons k0 ks ih =>
      rw [List.contains_cons, Bool.or_eq_false_iff] at h
      have hne : k ≠ k0 := by
        have h1 := h.1
        simpa using h1
      cases vs with
      | nil => rfl
      | cons v vs =>
          show (writeOutputs ks vs (bus.set k0 v)).get k = bus.get k
          rw [ih vs (bus.set k0 v) h.2]
          show (if k = k0 then v else bus k) = bus k
          rw [if_neg hne]

/-- A scheduler step for a Unit never changes a key outside its outputs. -/
theorem tickUnit_get_of_not_output (bus : Bus) (u : UnitD) (k : String)
    (h : u.outputs.contains k = false) :
    (tickUnit bus u).get k = bus.get k := by
  unfold tickUnit
  split
  · exact writeOutputs_get_of_contains_eq_false _ _ _ _ h
  · rfl

/-- The TubWriter step never changes the Bus, whether it runs or not. -/
theorem tickUnit_tub (bus : Bus) : tickUnit bus tubUnit = bus := by
  unfold tickUnit
  split
  · rfl
  · rfl

/-- The run-condition of the pilot Unit, at its turn in the tick, is the
Bool that pilot_condition computed from the mode the controller produced
on the same tick. -/
theorem runCond_pilot (b : Behaviors) (bus : Bus) :
    runCond (busAt b bus 4) (pilotUnit b) = pilot_condition ((b.ctrOut b.camOut).mode) := rfl

/-- The actuator steps (no outputs) and the TubWriter step do not change
the Bus, so the Bus seen after all nine Units at a key neither the pilot
nor the arbitration Lambda writes equals the Bus at the pilot's turn. -/
theorem busAt8_get_untouched (b : Behaviors) (bus : Bus) (k : String)
    (hp : (pilotUnit b).outputs.contains k = false)
    (hd : driveModeUnit.outputs.contains k = false) :
    (busAt b bus 8).get k = (busAt b bus 4).get k := by
  have e1 : (busAt b bus 8).get k = (busAt b bus 6).get k := rfl
  have e2 : (busAt b bus 6).get k = (busAt b bus 5).get k :=
    tickUnit_get_of_not_output (busAt b bus 5) driveModeUnit k hd
  have e3 : (busAt b bus 5).get k = (busAt b bus 4).get k :=
    tickUnit_get_of_not_output (busAt b bus 4) (pilotUnit b) k hp
  rw [e1, e2, e3]

/-- At the arbitration Lambda's turn, the mode is the controller's
same-tick output. -/
theorem busAt5_mode (b : Behaviors) (bus : Bus) :
    (busAt b bus 5).get "user/mode" = (b.ctrOut b.camOut).mode :=
  (tickUnit_get_of_not_output (busAt b bus 4) (pilotUnit b) "user/mode" rfl).trans rfl

/-- At the arbitration Lambda's turn, the user angle is the controller's
same-tick output. -/
theorem busAt5_user_angle (b : Behaviors) (bus : Bus) :
    (busAt b bus 5).get "user/angle" = (b.ctrOut b.camOut).angle :=
  (tickUnit_get_of_not_output (busAt b bus 4) (pilotUnit b) "user/angle" rfl).trans rfl

/-- At the arbitration Lambda's turn, the user throttle is the
controller's same-tick output. -/
theorem busAt5_user_throttle (b : Behaviors) (bus : Bus) :
    (busAt b bus 5).get "user/throttle" = (b.ctrOut b.camOut).throttle :=
  (tickUnit_get_of_not_output (busAt b bus 4) (pilotUnit b) "user/throttle" rfl).trans rfl

/-- At the arbitration Lambda's turn, the pilot angle is the pilot's
same-tick output when the pilot ran, else the pre-tick Bus value. -/
theorem busAt5_pilot_angle (b : Behaviors) (bus : Bus) :
    (busAt b bus 5).get "pilot/angle" =
      (if pilot_condition ((b.ctrOut b.camOut).mode) then (b.pilotOut b.camOut).angle
       else bus.get "pilot/angle") := by
  cases hx : pilot_condition ((b.ctrOut b.camOut).mode) with
  | false =>
      have h5 : busAt b bus 5 = busAt b bus 4 :=
        tickUnit_skip (busAt b bus 4) (pilotUnit b) (by rw [runCond_pilot, hx])
      rw [h5]
      rfl
  | true =>
      have h5 : busAt b bus 5
          = writeOutputs (pilotUnit b).outputs
              ((pilotUnit b).func ((pilotUnit b).inputs.map (busAt b bus 4).get))
              (busAt b bus 4) :=
        tickUnit_run (busAt b bus 4) (pilotUnit b) (by rw [runCond_pilot, hx])
      rw [h5]
      rfl

/-- At the arbitration Lambda's turn, the pilot throttle is the pilot's
same-tick output when the pilot ran, else the pre-tick Bus value. -/
theorem busAt5_pilot_throttle (b : Behaviors) (bus : Bus) :
    (busAt b bus 5).get "pilot/throttle" =
      (if pilot_condition ((b.ctrOut b.camOut).mode) then (b.pilotOut b.camOut).throttle
       else bus.get "pilot/throttle") := by
  cases hx : pilot_condition ((b.ctrOut b.camOut).mode) with
  | false =>
      have h5 : busAt b bus 5 = busAt b bus 4 :=
        tickUnit_skip (busAt b bus 4) (pilotUnit b) (by rw [runCond_pilot, hx])
      rw [h5]
      rfl
  | true =>
      have h5 : busAt b bus 5
          = writeOutputs (pilotUnit b).outputs
              ((pilotUnit b).func ((pilotUnit b).inputs.map (busAt b bus 4).get))
              (busAt b bus 4) :=
        tickUnit_run (busAt b bus 4) (pilotUnit b) (by rw [runCond_pilot, hx])
      rw [h5]
      rfl

/-- A default Unit used only for out-of-range list indexing. -/
def defUnit : UnitD :=
  { inputs := []
    outputs := []
    threaded := false
    run_condition := Option.none
    func := fun _ => [] }

/-- Whether key k appears among the output keys of a Unit registered
strictly before index i. -/
def producedEarlier (units : List UnitD) (i : Nat) (k : String) : Bool :=
  ((units.take i).map UnitD.outputs).any (fun outs => outs.contains k)

/-- Whether every input key and every run-condition key of every Unit in
the sequence is produced by some strictly earlier Unit. -/
def wellOrdered (units : List UnitD) : Bool :=
  (List.range units.length).all fun i =>
    let u := units.getD i defUnit
    u.inputs.all (producedEarlier units i) &&
      (match u.run_condition with
       | Option.none => true
       | Option.some k => producedEarlier units i k)

/-- Modelled from the spec: the writes each Unit performs during one tick,
in registration order; a skipped Unit writes nothing. -/
def tickWrites : List UnitD → Bus → List (List (String × Val))
  | [], _ => []
  | u :: us, bus =>
      (if runCond bus u then u.outputs.zip (u.func (u.inputs.map bus.get)) else [])
        :: tickWrites us (tickUnit bus u)

/-- Whether key k was written during the tick by some Unit strictly
before index i. -/
def producedOnTick (ws : List (List (String × Val))) (i : Nat) (k : String) : Bool :=
  (ws.take i).any (fun w => w.any (fun p => p.1 == k))

/-- The same-tick property: every input key a Unit reads on a tick was
written earlier on that very tick by some Unit. -/
def sameTickInputsB (units : List UnitD) (bus : Bus) : Bool :=
  let ws := tickWrites units bus
  (List.range units.length).all fun i =>
    ((units.getD i defUnit).inputs).all (producedOnTick ws i)

/-- A concrete behaviour assignment: the controller reports autopilot
mode "local" with recording off. -/
def bAuto : Behaviors :=
  { clockOut := Val.vstr "t0"
    camOut := Val.vint 1
    ctrOut := fun _ =>
      { angle := Val.vint 0
        throttle := Val.vint 0
        mode := Val.vstr "local"
        recording := Val.vbool false }
    pilotOut := fun _ => { angle := Val.vint 3, throttle := Val.vint 4 } }

/-- A concrete behaviour assignment: the controller reports manual mode
"user" with recording on. -/
def bUser : Behaviors :=
  { clockOut := Val.vstr "t0"
    camOut := Val.vint 1
    ctrOut := fun _ =>
      { angle := Val.vint 10
        throttle := Val.vint 20
        mode := Val.vstr "user"
        recording := Val.vbool true }
    pilotOut := fun _ => { angle := Val.vint 3, throttle := Val.vint 4 } }

/-- An initial Bus carrying stale pilot outputs from an earlier tick. -/
def busStale : Bus :=
  (Bus.empty.set "pilot/angle" (Val.vint 42)).set "pilot/throttle" (Val.vint 43)

/-- The (angle, throttle) pair produced by the arbitration Lambda on a
tick: its user inputs are the controller's same-tick outputs; its pilot
inputs are the pilot's same-tick outputs when the pilot ran, else the
Bus values from before the tick. -/
def driveArbitration (b : Behaviors) (bus : Bus) : Val × Val :=
  drive_mode ((b.ctrOut b.camOut).mode) ((b.ctrOut b.camOut).angle)
    ((b.ctrOut b.camOut).throttle)
    (if pilot_condition ((b.ctrOut b.camOut).mode) then (b.pilotOut b.camOut).angle
     else bus.get "pilot/angle")
    (if pilot_condition ((b.ctrOut b.camOut).mode) then (b.pilotOut b.camOut).throttle
     else bus.get "pilot/throttle")

/-- The value the arbitration Lambda writes to key "angle", read back at
the steering actuator's turn, is its drive_mode result on the values it
read at its own turn. -/
theorem busAt6_angle (b : Behaviors) (bus : Bus) :
    (busAt b bus 6).get "angle" = (driveArbitration b bus).1 := by
  have e : (busAt b bus 6).get "angle"
      = (drive_mode ((busAt b bus 5).get "user/mode") ((busAt b bus 5).get "user/angle")
          ((busAt b bus 5).get "user/throttle") ((busAt b bus 5).get "pilot/angle")
          ((busAt b bus 5).get "pilot/throttle")).1 := rfl
  rw [e, busAt5_mode, busAt5_user_angle, busAt5_user_throttle, busAt5_pilot_angle,
    busAt5_pilot_throttle]
  rfl

/-- The value the arbitration Lambda writes to key "throttle", read back
at the throttle actuator's turn. -/
theorem busAt7_throttle (b : Behaviors) (bus : Bus) :
    (busAt b bus 7).get "throttle" = (driveArbitration b bus).2 := by
  have e : (busAt b bus 7).get "throttle"
      = (drive_mode ((busAt b bus 5).get "user/mode") ((busAt b bus 5).get "user/angle")
          ((busAt b bus 5).get "user/throttle") ((busAt b bus 5).get "pilot/angle")
          ((busAt b bus 5).get "pilot/throttle")).2 := rfl
  rw [e, busAt5_mode, busAt5_user_angle, busAt5_user_throttle, busAt5_pilot_angle,
    busAt5_pilot_throttle]
  rfl

/-- C1: the pilot's run condition is the Bus value at key "run_pilot",
produced by the pilot_condition Lambda; pilot_condition returns False
exactly for the mode value "user", so at its turn in a tick the pilot
Unit executes exactly when the driving mode produced on that tick is not
"user". -/
theorem pilot_runs_iff_mode_not_user (b : Behaviors) (bus : Bus) :
    (∀ mode : Val, pilot_condition mode = false ↔ mode = Val.vstr "user") ∧
    (pilotUnit b).run_condition = Option.some "run_pilot" ∧
    pilotCondUnit.outputs = ["run_pilot"] ∧
    (runCond (busAt b bus 4) (pilotUnit b) = true ↔
      (b.ctrOut b.camOut).mode ≠ Val.vstr "user") := by
  refine ⟨?_, rfl, rfl, ?_⟩
  · intro mode
    by_cases hm : mode = Val.vstr "user" <;> simp [pilot_condition, hm]
  · rw [runCond_pilot]
    by_cases hm : (b.ctrOut b.camOut).mode = Val.vstr "user" <;>
      simp [pilot_condition, hm]

/-- C1 witness: with a controller reporting mode "local", the pilot's
run-condition resolves true at its turn. -/
theorem pilot_runs_iff_mode_not_user_witness :
    runCond (busAt bAuto Bus.empty 4) (pilotUnit bAuto) = true :=
  (pilot_runs_iff_mode_not_user bAuto Bus.empty).2.2.2.mpr (by decide)

/-- C2 counterexample: on a tick with the controller in mode "user" the
pilot is skipped, so the pilot keys the arbitration Lambda reads were
not written on that tick: it reads the stale pre-tick value 42, and the
same-tick-inputs property of the claim is false on this tick. -/
theorem same_tick_inputs_counterexample :
    sameTickInputsB (driveUnits bUser) busStale = false ∧
    (busAt bUser busStale 5).get "pilot/angle" = Val.vint 42 ∧
    busStale.get "pilot/angle" = Val.vint 42 ∧
    wellOrdered (driveUnits bUser) = true := by
  refine ⟨by decide, by decide, by decide, by decide⟩

/-- C2 (amended): every input key and run-condition key of every Unit in
the drive() sequence is produced by a strictly earlier Unit, and within
a tick each Unit reads the same-tick outputs of its producers whenever
those producers executed; the pilot keys read by the arbitration Lambda
are the pilot's same-tick outputs exactly when the pilot ran, and retain
their pre-tick values when the pilot was skipped. -/
theorem registration_order_feeds_same_tick (b : Behaviors) (bus : Bus) :
    wellOrdered (driveUnits b) = true ∧
    (busAt b bus 2).get "cam/image_array" = b.camOut ∧
    (busAt b bus 3).get "user/mode" = (b.ctrOut b.camOut).mode ∧
    (busAt b bus 4).get "cam/image_array" = b.camOut ∧
    (busAt b bus 5).get "user/mode" = (b.ctrOut b.camOut).mode ∧
    (busAt b bus 5).get "user/angle" = (b.ctrOut b.camOut).angle ∧
    (busAt b bus 5).get "user/throttle" = (b.ctrOut b.camOut).throttle ∧
    (busAt b bus 5).get "pilot/angle" =
      (if pilot_condition ((b.ctrOut b.camOut).mode) then (b.pilotOut b.camOut).angle
       else bus.get "pilot/angle") ∧
    (busAt b bus 5).get "pilot/throttle" =
      (if pilot_condition ((b.ctrOut b.camOut).mode) then (b.pilotOut b.camOut).throttle
       else bus.get "pilot/throttle") ∧
    (busAt b bus 6).get "angle" = (driveArbitration b bus).1 ∧
    (busAt b bus 7).get "throttle" = (driveArbitration b bus).2 ∧
    (busAt b bus 8).get "cam/image_array" = b.camOut ∧
    (busAt b bus 8).get "user/angle" = (b.ctrOut b.camOut).angle ∧
    (busAt b bus 8).get "user/throttle" = (b.ctrOut b.camOut).throttle ∧
    (busAt b bus 8).get "user/mode" = (b.ctrOut b.camOut).mode ∧
    (busAt b bus 8).get "timestamp" = b.clockOut ∧
    runCond (busAt b bus 8) tubUnit = truthy ((b.ctrOut b.camOut).recording) := by
  refine ⟨rfl, rfl, rfl, rfl, busAt5_mode b bus, busAt5_user_angle b bus,
    busAt5_user_throttle b bus, busAt5_pilot_angle b bus, busAt5_pilot_throttle b bus,
    busAt6_angle b bus, busAt7_throttle b bus, ?_, ?_, ?_, ?_, ?_, ?_⟩
  · exact (busAt8_get_untouched b bus "cam/image_array" rfl rfl).trans rfl
  · exact (busAt8_get_untouched b bus "user/angle" rfl rfl).trans rfl
  · exact (busAt8_get_untouched b bus "user/throttle" rfl rfl).trans rfl
  · exact (busAt8_get_untouched b bus "user/mode" rfl rfl).trans rfl
  · exact (busAt8_get_untouched b bus "timestamp" rfl rfl).trans rfl
  · show truthy ((busAt b bus 8).get "recording") = truthy ((b.ctrOut b.camOut).recording)
    have e4 : (busAt b bus 4).get "recording" = (b.ctrOut b.camOut).recording := rfl
    rw [(busAt8_get_untouched b bus "recording" rfl rfl).trans e4]

/-- C3: on a tick where the pilot's run-condition resolves false (the
controller mode is "user"), the pilot is skipped and the Bus values at
its output keys after the full tick equal their values before the tick;
the TubWriter is gated by "recording" and declares no output keys; in
general a Unit whose run-condition resolves false leaves the whole Bus
untouched at its turn. -/
theorem skipped_unit_outputs_preserved (b : Behaviors) (bus : Bus)
    (h : pilot_condition ((b.ctrOut b.camOut).mode) = false) :
    (tick (driveUnits b) bus).get "pilot/angle" = bus.get "pilot/angle" ∧
    (tick (driveUnits b) bus).get "pilot/throttle" = bus.get "pilot/throttle" ∧
    tubUnit.run_condition = Option.some "recording" ∧
    tubUnit.outputs = [] ∧
    (∀ (bus0 : Bus) (u : UnitD), runCond bus0 u = false → tickUnit bus0 u = bus0) := by
  have htick : tick (driveUnits b) bus = busAt b bus 8 :=
    tickUnit_tub (busAt b bus 8)
  have hskip : busAt b bus 5 = busAt b bus 4 :=
    tickUnit_skip (busAt b bus 4) (pilotUnit b) (by rw [runCond_pilot, h])
  refine ⟨?_, ?_, rfl, rfl, tickUnit_skip⟩
  · rw [htick]
    have e1 : (busAt b bus 8).get "pilot/angle" = (busAt b bus 6).get "pilot/angle" := rfl
    have e2 : (busAt b bus 6).get "pilot/angle" = (busAt b bus 5).get "pilot/angle" :=
      tickUnit_get_of_not_output (busAt b bus 5) driveModeUnit "pilot/angle" rfl
    rw [e1, e2, hskip]
    rfl
  · rw [htick]
    have e1 : (busAt b bus 8).get "pilot/throttle" = (busAt b bus 6).get "pilot/throttle" := rfl
    have e2 : (busAt b bus 6).get "pilot/throttle" = (busAt b bus 5).get "pilot/throttle" :=
      tickUnit_get_of_not_output (busAt b bus 5) driveModeUnit "pilot/throttle" rfl
    rw [e1, e2, hskip]
    rfl

/-- C3 witness: with the controller in mode "user" and stale pilot
values 42 and 43 on the Bus, a full tick leaves both pilot keys at their
pre-tick values. -/
theorem skipped_unit_outputs_preserved_witness :
    pilot_condition ((bUser.ctrOut bUser.camOut).mode) = false ∧
    (tick (driveUnits bUser) busStale).get "pilot/angle" = busStale.get "pilot/angle" ∧
    (tick (driveUnits bUser) busStale).get "pilot/throttle" = busStale.get "pilot/throttle" :=
  ⟨by decide, (skipped_unit_outputs_preserved bUser busStale (by decide)).1,
    (skipped_unit_outputs_preserved bUser busStale (by decide)).2.1⟩

/-- C4: drive_mode is total: it returns the user pair for mode "user",
pilot angle with user throttle for "local_angle", and the full pilot
pair for every other value including unrecognized ones; combined with
pilot_condition, in mode "user" the pilot is both skipped and its
outputs ignored by the arbitration. -/
theorem drive_mode_arbitration (m ua ut pa pt : Val) :
    drive_mode (Val.vstr "user") ua ut pa pt = (ua, ut) ∧
    drive_mode (Val.vstr "local_angle") ua ut pa pt = (pa, ut) ∧
    (m ≠ Val.vstr "user" → m ≠ Val.vstr "local_angle" →
      drive_mode m ua ut pa pt = (pa, pt)) ∧
    pilot_condition (Val.vstr "user") = false := by
  refine ⟨rfl, rfl, ?_, rfl⟩
  intro h1 h2
  simp [drive_mode, h1, h2]

/-- C4 witness: an unrecognized mode string selects the full pilot pair. -/
theorem drive_mode_arbitration_witness :
    drive_mode (Val.vstr "chaos") (Val.vint 1) (Val.vint 2) (Val.vint 3) (Val.vint 4)
      = (Val.vint 3, Val.vint 4) :=
  (drive_mode_arbitration (Val.vstr "chaos") (Val.vint 1) (Val.vint 2) (Val.vint 3)
    (Val.vint 4)).2.2.1 (by decide) (by decide)

/-- C5: each Lambda's declared key lists match the wrapped function's
arity: the gating Lambda has one input key for the one parameter of
pilot_condition and one output key for its one result; the arbitration
Lambda has five input keys for the five parameters of drive_mode and
two output keys for the two components of its result pair. -/
theorem lambda_arity_matches (v m ua ut pa pt : Val) :
    pilotCondUnit.inputs = ["user/mode"] ∧
    pilotCondUnit.outputs = ["run_pilot"] ∧
    pilotCondUnit.func [v] = [Val.vbool (pilot_condition v)] ∧
    (pilotCondUnit.func [v]).length = pilotCondUnit.outputs.length ∧
    driveModeUnit.inputs.length = 5 ∧
    driveModeUnit.outputs = ["angle", "throttle"] ∧
    driveModeUnit.func [m, ua, ut, pa, pt]
      = [(drive_mode m ua ut pa pt).1, (drive_mode m ua ut pa pt).2] ∧
    (driveModeUnit.func [m, ua, ut, pa, pt]).length = driveModeUnit.outputs.length :=
  ⟨rfl, rfl, rfl, rfl, rfl, rfl, rfl, rfl⟩

/-- C6: the TubWriter is registered gated by run-condition key
"recording", a key produced by the input controller Unit; it consumes
exactly the five declared keys with a types list of equal length and
declares no output keys, so executing it never changes any Bus value. -/
theorem tub_writer_descriptor (b : Behaviors) (bus : Bus) :
    tubUnit.run_condition = Option.some "recording" ∧
    "recording" ∈ (ctrUnit b).outputs ∧
    tubUnit.inputs
      = ["cam/image_array", "user/angle", "user/throttle", "user/mode", "timestamp"] ∧
    tub_types.length = tubUnit.inputs.length ∧
    tubUnit.outputs = [] ∧
    tickUnit bus tubUnit = bus :=
  ⟨rfl, by simp [ctrUnit], rfl, rfl, rfl, tickUnit_tub bus⟩

/-- Modelled from the spec: the observable outcome of one V.start run —
the final Bus, the number of scheduler ticks executed, and the running
flag of each threaded Unit's background thread at return. -/
structure RunResult where
  bus : Bus
  tickCount : Nat
  threads : List Bool

/-- Modelled from the spec: the Running state — while the executed tick
count has not reached the configured maximum, execute one full scheduler
tick and count it; the extra fuel argument bounds the recursion. -/
def runLoop (units : List UnitD) : Bus → Nat → Nat → Nat → Bus × Nat
  | bus, count, _, 0 => (bus, count)
  | bus, count, maxL, fuel + 1 =>
      if count < maxL then runLoop units (tick units bus) (count + 1) maxL fuel
      else (bus, count)

/-- Modelled from the spec: V.start(rate_hz, max_loop_count) — start the
background thread of every threaded Unit, run the tick loop until the
configured maximum tick count is reached, then signal every threaded
Unit to stop and join its thread before returning. -/
def vehicleStart (units : List UnitD) (bus : Bus) (maxL : Nat) : RunResult :=
  let started := (units.filter (fun u => u.threaded)).map (fun _ => true)
  let r := runLoop units bus 0 maxL maxL
  { bus := r.1
    tickCount := r.2
    threads := started.map (fun _ => false) }

/-- The tick loop runs until the count reaches the maximum, given enough
fuel. -/
theorem runLoop_count (units : List UnitD) :
    ∀ (fuel count : Nat) (bus : Bus) (maxL : Nat), count ≤ maxL → maxL - count ≤ fuel →
      (runLoop units bus count maxL fuel).2 = maxL := by
  intro fuel
  induction fuel with
  | zero =>
      intro count bus maxL h1 h2
      have hc : count = maxL := by omega
      simp [runLoop, hc]
  | succ fuel ih =>
      intro count bus maxL h1 h2
      by_cases hc : count < maxL
      · have e : runLoop units bus count maxL (fuel + 1)
            = runLoop units (tick units bus) (count + 1) maxL fuel := by
          simp [runLoop, hc]
        rw [e]
        exact ih (count + 1) (tick units bus) maxL (by omega) (by omega)
      · have hcm : count = maxL := by omega
        simp [runLoop, hc, hcm]

/-- C7: starting the vehicle loop with maximum tick count N executes
exactly N scheduler ticks and returns with both threaded Units (the
camera and the input controller) signalled to stop and their background
threads joined (not running). -/
theorem start_executes_max_loops (b : Behaviors) (bus : Bus) (n : Nat) :
    (vehicleStart (driveUnits b) bus n).tickCount = n ∧
    ((driveUnits b).filter (fun u => u.threaded)).length = 2 ∧
    (vehicleStart (driveUnits b) bus n).threads.length = 2 ∧
    (∀ f ∈ (vehicleStart (driveUnits b) bus n).threads, f = false) := by
  refine ⟨?_, rfl, rfl, ?_⟩
  · show (runLoop (driveUnits b) bus 0 n n).2 = n
    exact runLoop_count (driveUnits b) n 0 bus n (Nat.zero_le n) (by omega)
  · intro f hf
    have e : (vehicleStart (driveUnits b) bus n).threads = [false, false] := rfl
    rw [e] at hf
    simp at hf
    exact hf

/-- C7 witness: a run with maximum tick count 3 executes 3 ticks and
returns with the first thread flag cleared. -/
theorem start_executes_max_loops_witness :
    (vehicleStart (driveUnits bUser) busStale 3).tickCount = 3 ∧
    (vehicleStart (driveUnits bUser) busStale 3).threads.headD true = false :=
  ⟨(start_executes_max_loops bUser busStale 3).1,
    (start_executes_max_loops bUser busStale 3).2.2.2
      ((vehicleStart (driveUnits bUser) busStale 3).threads.headD true) (by decide)⟩

/-- Configuration values handed to the joystick controller constructor
in manage.py; opaque here. -/
structure Cfg where
  joystick_max_throttle : Val
  joystick_steering_scale : Val
  auto_record_on_throttle : Val

/-- A constructed input controller, carrying exactly the constructor
arguments manage.py passes on each path: the PS4 joystick receives the
scaling and auto-record settings, the local web controller receives
use_chaos. -/
inductive Controller where
  | ps4 (throttle_scale steering_scale auto_record_on_throttle : Val)
  | web (use_chaos : Bool)

/-- Embedded from manage.py drive(): the controller variant selection
and construction. -/
def make_controller (cfg : Cfg) (use_joystick : Bool) (use_chaos : Bool) : Controller :=
  if use_joystick then
    Controller.ps4 cfg.joystick_max_throttle cfg.joystick_steering_scale
      cfg.auto_record_on_throttle
  else Controller.web use_chaos

/-- The chaos flag a constructed controller received, if any. -/
def chaos_flag : Controller → Option Bool
  | Controller.ps4 _ _ _ => Option.none
  | Controller.web c => Option.some c

/-- C8 counterexample: with the joystick variant selected and the
injected-disturbance flag set, the constructed controller carries no
chaos flag: use_chaos is not forwarded on the joystick path. -/
theorem chaos_not_forwarded_to_joystick :
    chaos_flag (make_controller
      { joystick_max_throttle := Val.vint 1
        joystick_steering_scale := Val.vint 1
        auto_record_on_throttle := Val.vbool true } true true) = Option.none := rfl

/-- C8 (amended): with use_chaos=True the flag is forwarded to the input
controller exactly when the web variant is selected; the joystick
controller is constructed without any chaos argument. -/
theorem chaos_forwarded_web_only (cfg : Cfg) (c : Bool) :
    chaos_flag (make_controller cfg false c) = Option.some c ∧
    chaos_flag (make_controller cfg true c) = Option.none :=
  ⟨rfl, rfl⟩

/-- A Keras model object as constructed by get_model. -/
inductive KModel where
  | kerasLinear (variant : String)
  | kerasRNN

/-- Embedded from manage.py: get_model returns a model for the four
known type strings and raises ValueError("Unknown model type") for any
other argument. -/
def get_model (model_type : Val) : Except String KModel :=
  if model_type = Val.vstr "linear" then Except.ok (KModel.kerasLinear "default_linear")
  else if model_type = Val.vstr "linear-dropout" then
    Except.ok (KModel.kerasLinear "linear_dropout")
  else if model_type = Val.vstr "linear-cropped-dropout" then
    Except.ok (KModel.kerasLinear "linear_cropped_dropout")
  else if model_type = Val.vstr "rnn" then Except.ok KModel.kerasRNN
  else Except.error "Unknown model type"

/-- Whether get_model returned a model rather than raising. -/
def returns_model (r : Except String KModel) : Bool :=
  match r with
  | Except.ok _ => true
  | Except.error _ => false

/-- Embedded from manage.py: the default model_type declared in the
signatures of drive and train. -/
def default_model_type : Val := Val.vstr "linear-dropout"

/-- Embedded from Python call semantics: the model_type the body of
drive or train sees — the passed argument when the caller passes one,
the declared default only when the argument is omitted. -/
def effective_model_type (passed : Option Val) : Val :=
  passed.getD default_model_type

/-- Embedded from the __main__ block: both CLI commands always pass
args["--type"] explicitly (None when --type is absent on the command
line). -/
def cli_model_type (arg_type : Val) : Val :=
  effective_model_type (Option.some arg_type)

/-- C9: get_model succeeds exactly on the four known model-type strings
and fails with ValueError on every other value including None; the CLI
passes args["--type"] through unchanged, so invoking drive or train
without --type hands None to get_model, which raises, and the declared
default "linear-dropout" is never consulted on the CLI path. -/
theorem get_model_domain (v : Val) :
    (returns_model (get_model v) = true ↔
      v = Val.vstr "linear" ∨ v = Val.vstr "linear-dropout" ∨
        v = Val.vstr "linear-cropped-dropout" ∨ v = Val.vstr "rnn") ∧
    get_model Val.vnone = Except.error "Unknown model type" ∧
    cli_model_type v = v ∧
    get_model (cli_model_type Val.vnone) = Except.error "Unknown model type" := by
  refine ⟨?_, rfl, rfl, rfl⟩
  by_cases h1 : v = Val.vstr "linear" <;>
    by_cases h2 : v = Val.vstr "linear-dropout" <;>
      by_cases h3 : v = Val.vstr "linear-cropped-dropout" <;>
        by_cases h4 : v = Val.vstr "rnn" <;>
          simp [get_model, returns_model, h1, h2, h3, h4]

/-- C9 witness: "rnn" is accepted by get_model. -/
theorem get_model_domain_witness :
    returns_model (get_model (Val.vstr "rnn")) = true :=
  (get_model_domain (Val.vstr "rnn")).1.mpr (by decide)

/-- Embedded from Python semantics of int() applied to a nonnegative or
negative number: truncation toward zero. -/
def pyInt (q : ℚ) : ℤ :=
  if 0 ≤ q then ⌊q⌋ else -⌊-q⌋

/-- Embedded from manage.py train():
total_train = int(total_records * cfg.TRAIN_TEST_SPLIT). -/
def total_train (total_records : ℕ) (split : ℚ) : ℤ :=
  pyInt ((total_records : ℚ) * split)

/-- Embedded from manage.py train():
total_val = total_records - total_train. -/
def total_val (total_records : ℕ) (split : ℚ) : ℤ :=
  (total_records : ℤ) - total_train total_records split

/-- Embedded from manage.py train(): steps_per_epoch = total_train //
cfg.BATCH_SIZE, with Python floor division. -/
def steps_per_epoch (total_records : ℕ) (split : ℚ) (batch : ℤ) : ℤ :=
  Int.fdiv (total_train total_records split) batch

/-- C10: for every record count and nonnegative train fraction,
total_train is the floor of their product, total_train plus total_val
equals the record count, and steps_per_epoch is zero whenever
total_train is smaller than the batch size. -/
theorem train_split_arithmetic (n : ℕ) (split : ℚ) (batch : ℤ) (hs : 0 ≤ split) :
    total_train n split = ⌊(n : ℚ) * split⌋ ∧
    total_train n split + total_val n split = (n : ℤ) ∧
    (total_train n split < batch → steps_per_epoch n split batch = 0) := by
  have hnn : (0 : ℚ) ≤ (n : ℚ) * split := mul_nonneg (Nat.cast_nonneg n) hs
  have hfloor : total_train n split = ⌊(n : ℚ) * split⌋ := by
    unfold total_train pyInt
    rw [if_pos hnn]
  refine ⟨hfloor, by unfold total_val; ring, ?_⟩
  intro hlt
  have h0 : 0 ≤ total_train n split := by
    rw [hfloor]
    exact Int.floor_nonneg.mpr hnn
  have hb : 0 ≤ batch := le_trans h0 (le_of_lt hlt)
  unfold steps_per_epoch
  rw [Int.fdiv_eq_ediv _ hb]
  exact Int.ediv_eq_zero_of_lt h0 hlt

/-- C10 witness: with 10 records, split 3/4 and batch size 8,
total_train is 7, total_val is 3, and steps_per_epoch is 0. -/
theorem train_split_arithmetic_witness :
    total_train 10 (3 / 4) = ⌊(10 : ℚ) * (3 / 4)⌋ ∧
    total_train 10 (3 / 4) + total_val 10 (3 / 4) = (10 : ℤ) ∧
    steps_per_epoch 10 (3 / 4) 8 = 0 := by
  have h := train_split_arithmetic 10 (3 / 4) 8 (by norm_num)
  refine ⟨h.1, h.2.1, h.2.2 ?_⟩
  rw [h.1]
  norm_num [Int.floor_eq_iff]
